import Mathlib

/-!
Verification of the `idaho_climate_map` pipeline (`src/main.py`) against its
specification.  The script is a linear pipeline: load county polygons
(geopandas, line 21), open and clip a temperature raster (rasterio, lines
22-37), build a no-data mask and percentile-normalize the clipped grid
(numpy, lines 38-42), apply the matplotlib jet colormap and force no-data
cells transparent (lines 43-46), write a PNG (line 48) and a folium HTML map
(lines 49-83).

The numeric model: raster cells are IEEE floating-point samples, embedded
here as `RVal` — either NaN or an exact rational.  Infinities are not
modelled: no claim concerns them, the input rasters are temperature data,
and the one division in the program (line 42) is applied only to values
already clipped into `[vmin, vmax]` (line 41), so a zero denominator always
comes with a zero numerator (0/0 = NaN) and the infinite IEEE quotients
cannot arise.  Exact rational arithmetic stands in for float arithmetic;
none of the claims depends on rounding.
-/

/-- A raster cell value: an IEEE float modelled as NaN or an exact rational. -/
inductive RVal where
  | nan
  | val (x : ℚ)
deriving DecidableEq

instance {ε α : Type} [DecidableEq ε] [DecidableEq α] : DecidableEq (Except ε α) := fun x y =>
  match x, y with
  | .ok a, .ok b =>
    if h : a = b then .isTrue (by rw [h])
    else .isFalse (fun hh => h (Except.ok.inj hh))
  | .error a, .error b =>
    if h : a = b then .isTrue (by rw [h])
    else .isFalse (fun hh => h (Except.error.inj hh))
  | .ok _, .error _ => .isFalse (fun hh => Except.noConfusion hh)
  | .error _, .ok _ => .isFalse (fun hh => Except.noConfusion hh)

/-- Line 38: `nodata_value = src.nodata if src.nodata is not None else -32000`. -/
def nodataValue (srcNodata : Option ℚ) : ℚ := srcNodata.getD (-32000)

/-- One cell of line 39, `(data == nodata_value) | np.isnan(data)`.
In IEEE comparison NaN is not equal to the sentinel, but `isnan` catches it. -/
def isNodata (nd : ℚ) : RVal → Bool
  | .nan => true
  | .val x => decide (x = nd)

/-- Line 39: `nodata_mask = (data == nodata_value) | np.isnan(data)`, elementwise. -/
def nodataMask (data : List RVal) (nd : ℚ) : List Bool := data.map (isNodata nd)

/-- Line 40's `data[~nodata_mask]`: the finite values of the cells whose mask
bit is false (a non-masked cell is never NaN, so it carries a rational). -/
def validValues (data : List RVal) (nd : ℚ) : List ℚ :=
  data.filterMap (fun c => match c with
    | .nan => none
    | .val x => if x = nd then none else some x)

/-- Floor of a nonnegative-or-negative rational as an integer floor division,
then truncated to `ℕ` (all uses are on nonnegative arguments). -/
def qfloorNat (q : ℚ) : ℕ := (q.num.fdiv (q.den : ℤ)).toNat

/-- Insertion of one value into a sorted list (ascending). -/
def insertSorted (x : ℚ) : List ℚ → List ℚ
  | [] => [x]
  | y :: ys => if x ≤ y then x :: y :: ys else y :: insertSorted x ys

/-- Ascending sort, as performed internally by `np.percentile`. -/
def sortQ (xs : List ℚ) : List ℚ := xs.foldr insertSorted []

/-- `np.percentile(xs, q)` with the default linear interpolation: sort the
values, take the fractional rank `h = (n-1)*q/100`, and interpolate between
the two neighbouring order statistics.  `np.percentile` raises on an empty
input (NumPy `IndexError`), modelled as `none`. -/
def percentile (xs : List ℚ) (q : ℚ) : Option ℚ :=
  match sortQ xs with
  | [] => none
  | s =>
    let n := s.length
    let h : ℚ := ((n : ℚ) - 1) * q / 100
    let i : ℕ := qfloorNat h
    let lo := s.getD i 0
    let hi := s.getD (i + 1) lo
    some (lo + (h - (i : ℚ)) * (hi - lo))

/-- Line 40: `vmin, vmax = np.percentile(data[~nodata_mask], [2, 98])`.
`none` when the valid-value set is empty (NumPy raises there). -/
def colorizeRange (data : List RVal) (srcNodata : Option ℚ) : Option (ℚ × ℚ) :=
  let valid := validValues data (nodataValue srcNodata)
  match percentile valid 2, percentile valid 98 with
  | some a, some b => some (a, b)
  | _, _ => none

/-- The comparison-based maximum used by `np.maximum`. -/
def qmax (a b : ℚ) : ℚ := if a ≤ b then b else a

/-- The comparison-based minimum used by `np.minimum`. -/
def qmin (a b : ℚ) : ℚ := if a ≤ b then a else b

/-- One cell of line 41, `np.clip(data, vmin, vmax)` = `min(max(x, vmin), vmax)`;
NaN propagates through IEEE min/max as used by `np.clip`. -/
def clipV (vmin vmax : ℚ) : RVal → RVal
  | .nan => .nan
  | .val x => .val (qmin vmax (qmax vmin x))

/-- Line 41 elementwise over the grid (the whole grid, no-data cells included). -/
def clipGrid (vmin vmax : ℚ) (data : List RVal) : List RVal := data.map (clipV vmin vmax)

/-- One cell of line 42, `(data - vmin) / (vmax - vmin)`, in IEEE arithmetic on
the modelled values: NaN propagates, and when the denominator is zero the
numerator is also zero for every cell the colorizer feeds in (they were
clipped into `[vmin, vmax]` at line 41 first), so the quotient is 0/0 = NaN.
The infinite IEEE quotients x/0 (x nonzero) cannot arise in the program and
are not modelled. -/
def rescaleV (vmin vmax : ℚ) : RVal → RVal
  | .nan => .nan
  | .val x => if vmax - vmin = 0 then .nan else .val ((x - vmin) / (vmax - vmin))

/-- Line 42 elementwise over the grid. -/
def rescaleGrid (vmin vmax : ℚ) (data : List RVal) : List RVal := data.map (rescaleV vmin vmax)

/-- The red channel of matplotlib's jet colormap: piecewise-linear
interpolation of the jet segment data. -/
def interp : List (ℚ × ℚ) → ℚ → ℚ
  | [], _ => 0
  | [p], _ => p.2
  | p :: q :: rest, x =>
    if x ≤ q.1 then p.2 + (x - p.1) * (q.2 - p.2) / (q.1 - p.1)
    else interp (q :: rest) x

/-- Jet red channel segment data (matplotlib `_jet_data`). -/
def jetRed (x : ℚ) : ℚ :=
  interp [(0, 0), (35/100, 0), (66/100, 1), (89/100, 1), (1, 1/2)] x

/-- Jet green channel segment data (matplotlib `_jet_data`). -/
def jetGreen (x : ℚ) : ℚ :=
  interp [(0, 0), (125/1000, 0), (375/1000, 1), (64/100, 1), (91/100, 0), (1, 0)] x

/-- Jet blue channel segment data (matplotlib `_jet_data`). -/
def jetBlue (x : ℚ) : ℚ :=
  interp [(0, 1/2), (11/100, 1), (34/100, 1), (65/100, 0), (1, 0)] x

/-- Lines 43-44: `plt.get_cmap("jet")` applied to one cell.  Matplotlib maps
NaN to the bad color (fully transparent (0,0,0,0) by default), clamps
finite out-of-range inputs to the endpoint colors, and jet carries no alpha
segment, so every non-NaN input gets alpha 1.  The continuous piecewise-linear
segment interpolation is used; matplotlib additionally quantizes it to a
256-entry lookup table, which no claim depends on (the concrete inputs
evaluated below sit at 0 and 1, where both agree exactly). -/
def cmapJet : RVal → ℚ × ℚ × ℚ × ℚ
  | .nan => (0, 0, 0, 0)
  | .val x =>
    let c := qmin 1 (qmax 0 x)
    (jetRed c, jetGreen c, jetBlue c, 1)

/-- Line 44 elementwise over the rescaled grid. -/
def cmapGrid (data : List RVal) : List (ℚ × ℚ × ℚ × ℚ) := data.map cmapJet

/-- Line 45: `rgba_img[nodata_mask, :] = [0, 0, 0, 0]` — overwrite the pixels
whose mask bit is set, keep the rest. -/
def applyNodata : List (ℚ × ℚ × ℚ × ℚ) → List Bool → List (ℚ × ℚ × ℚ × ℚ)
  | c :: cs, b :: bs => (if b then ((0 : ℚ), (0 : ℚ), (0 : ℚ), (0 : ℚ)) else c) :: applyNodata cs bs
  | _, _ => []

/-- One channel of line 46, `(rgba_img * 255).astype(np.uint8)`: multiply by
255 and truncate (truncation equals floor on the nonnegative channel values
produced by the colormap). -/
def toByte (q : ℚ) : ℕ := qfloorNat (q * 255)

/-- Line 46 on one pixel. -/
def toBytes (c : ℚ × ℚ × ℚ × ℚ) : ℕ × ℕ × ℕ × ℕ :=
  (toByte c.1, toByte c.2.1, toByte c.2.2.1, toByte c.2.2.2)

/-- Line 46 over the image. -/
def toByteImage (img : List (ℚ × ℚ × ℚ × ℚ)) : List (ℕ × ℕ × ℕ × ℕ) := img.map toBytes

/-- Lines 38-46, the whole colorizer: mask, percentile range, clip, rescale,
colormap, transparent overwrite, byte conversion.  `Except.error` is the
NumPy `IndexError` raised by the empty percentile input at line 40. -/
def colorize (data : List RVal) (srcNodata : Option ℚ) :
    Except Unit (List (ℕ × ℕ × ℕ × ℕ)) :=
  match colorizeRange data srcNodata with
  | none => .error ()
  | some (vmin, vmax) =>
    .ok (toByteImage
      (applyNodata
        (cmapGrid (rescaleGrid vmin vmax (clipGrid vmin vmax data)))
        (nodataMask data (nodataValue srcNodata))))

/-!
The pipeline around the colorizer.  Boundary polygons matter to the program
only through their rasterized coverage of the raster grid (which cells fall
inside the polygon union), so a geometry is modelled as its coverage list;
the CRS reprojection at lines 25-27 is a coordinate relabelling that leaves
that coverage unchanged.  The grid is flattened to a single list of cells;
`crop=True` narrows the output window to the bounding window of the shapes,
which drops rows/columns but does not change any surviving cell, so the
per-cell claims are unaffected and the model keeps the full window.
-/

/-- The vector boundary file as `gpd.read_file` (line 21) sees it: missing,
unreadable, or readable content carrying a (possibly empty) list of
geometries and a CRS tag. -/
inductive VectorFile where
  | missing
  | unreadable
  | content (geoms : List (List Bool)) (crs : ℤ)
deriving DecidableEq

/-- The raster dataset as `rasterio.open` (line 22) exposes it: the first
band's cells, the declared no-data value (if any), and the CRS tag. -/
structure Raster where
  cells : List RVal
  nodata : Option ℚ
  crs : ℤ
deriving DecidableEq

/-- One run's environment: the two input files and whether the two output
writes (PNG at line 48, HTML at line 83) would succeed if attempted. -/
structure Env where
  vectorFile : VectorFile
  raster : Option Raster
  pngWriteOk : Bool
  htmlWriteOk : Bool
deriving DecidableEq

/-- The spec's error taxonomy, mapped onto the uncaught exceptions the script
can die with: geopandas load failure, rasterio open failure, the rasterio
ValueError when shapes do not overlap the raster, the NumPy IndexError on an
empty percentile input (line 40), PIL save failure, folium save failure. -/
inductive PErr where
  | dataLoad
  | rasterOpen
  | clipEmpty
  | percentileEmpty
  | encode
  | write
deriving DecidableEq

/-- Observable outcome of one run: the error it died with (if any) and
whether the PNG and the HTML files were produced. -/
structure RunResult where
  err : Option PErr
  pngWritten : Bool
  htmlWritten : Bool
deriving DecidableEq

/-- Models `gpd.read_file` at line 21: raises (the spec's `DataLoadError`)
when the file is missing or unreadable; a readable dataset is returned as
its geometries and CRS — geopandas returns an *empty* GeoDataFrame, without
raising, for a readable file with zero features. -/
def gpdReadFile : VectorFile → Except PErr (List (List Bool) × ℤ)
  | .missing => .error .dataLoad
  | .unreadable => .error .dataLoad
  | .content geoms crs => .ok (geoms, crs)

/-- The fill value `rasterio.mask.mask` uses for cells outside the shapes
when no `nodata` argument is passed (line 29 passes none): the dataset's
declared no-data value, or 0 when the dataset declares none (rasterio's
documented default). -/
def maskFill (nodata : Option ℚ) : ℚ := nodata.getD 0

/-- Whether cell `i` lies inside the union of the boundary geometries. -/
def unionCover (geoms : List (List Bool)) (i : ℕ) : Bool :=
  geoms.any (fun g => g.getD i false)

/-- Whether the geometries cover any cell of an `n`-cell grid at all. -/
def coversSome (geoms : List (List Bool)) (n : ℕ) : Bool :=
  (List.range n).any (fun i => unionCover geoms i)

/-- The cell rewrite of `rasterio.mask.mask`: keep covered cells, fill the
rest (`k` is the index of the first cell of `cells`). -/
def maskCells (geoms : List (List Bool)) (fill : ℚ) : List RVal → ℕ → List RVal
  | [], _ => []
  | c :: cs, k => (if unionCover geoms k then c else .val fill) :: maskCells geoms fill cs (k + 1)

/-- Line 29, `mask(src, idaho_shapes, crop=True)`: raises (the rasterio
ValueError the spec calls `ClipEmptyError`) when the shapes do not intersect
the raster extent — modelled as covering no cell; otherwise cells outside
the polygon union become the fill value. -/
def maskCrop (cells : List RVal) (geoms : List (List Bool)) (nodata : Option ℚ) :
    Except Unit (List RVal) :=
  if coversSome geoms cells.length then .ok (maskCells geoms (maskFill nodata) cells 0)
  else .error ()

/-- Lines 18-84 of `main`, as the sequence of observable steps: load the
vector file (21), open the raster (22), reproject the boundaries if the CRS
tags differ (25-27, identity on coverage), mask and crop (29), colorize
(38-46), write the PNG (48), assemble and write the HTML map (49-83).  The
first uncaught exception stops the run; each write happens only when
everything before it succeeded. -/
def runMain (env : Env) : RunResult :=
  match gpdReadFile env.vectorFile with
  | .error _ => ⟨some .dataLoad, false, false⟩
  | .ok (geoms, _gcrs) =>
    match env.raster with
    | none => ⟨some .rasterOpen, false, false⟩
    | some src =>
      match maskCrop src.cells geoms src.nodata with
      | .error _ => ⟨some .clipEmpty, false, false⟩
      | .ok data =>
        match colorize data src.nodata with
        | .error _ => ⟨some .percentileEmpty, false, false⟩
        | .ok _img =>
          if env.pngWriteOk then
            if env.htmlWriteOk then ⟨none, true, true⟩
            else ⟨some .write, true, false⟩
          else ⟨some .encode, false, false⟩

/-!
Raster-handle lifetime.  Lines 22-38 interact with the raster file in a
fixed order: open it (22), read its CRS (23), read the first band through
`mask` (29), close the handle when the `with` block ends (after line 37),
and only then read `src.nodata` (line 38).  The trace below records that
order, read off the source. -/

/-- One interaction with the raster dataset handle. -/
inductive RasterEvent where
  | openHandle
  | readCRS
  | maskReadBand
  | closeHandle
  | readNodataAttr
deriving DecidableEq

/-- The handle interactions of `main`, in source order (lines 22, 23, 29,
end of the `with` block after 37, and 38). -/
def mainRasterEvents : List RasterEvent :=
  [.openHandle, .readCRS, .maskReadBand, .closeHandle, .readNodataAttr]

/-- Which events read an attribute or data from the dataset. -/
def isAttrRead : RasterEvent → Bool
  | .readCRS => true
  | .maskReadBand => true
  | .readNodataAttr => true
  | _ => false

/-- Whether some attribute read happens after a close of the handle. -/
def attrReadAfterClose : List RasterEvent → Bool
  | [] => false
  | .closeHandle :: rest => rest.any isAttrRead || attrReadAfterClose rest
  | _ :: rest => attrReadAfterClose rest

/-- The color one cell receives from lines 41-46, read off elementwise: the
transparent overwrite for masked cells, otherwise clip, rescale, colormap
and byte conversion.  `colorize` is proved below to equal this map. -/
def pixelOf (nd vmin vmax : ℚ) (c : RVal) : ℕ × ℕ × ℕ × ℕ :=
  if isNodata nd c then (0, 0, 0, 0)
  else toBytes (cmapJet (rescaleV vmin vmax (clipV vmin vmax c)))

/-- Whether a cell value is a finite number lying in the interval [0, 1]
(NaN lies in no interval). -/
def inUnitInterval : RVal → Bool
  | .nan => false
  | .val x => decide (0 ≤ x ∧ x ≤ 1)

/-!
Theorems.  First the structural helpers shared by the claims, then one
theorem per claim (with its witness or counterexample where required).
-/

theorem qmax_eq_max (a b : ℚ) : qmax a b = max a b := (max_def a b).symm

theorem qmin_eq_min (a b : ℚ) : qmin a b = min a b := (min_def a b).symm

theorem applyNodata_map {α : Type} (f : α → ℚ × ℚ × ℚ × ℚ) (g : α → Bool) (l : List α) :
    applyNodata (l.map f) (l.map g) =
      l.map (fun c => if g c then ((0 : ℚ), (0 : ℚ), (0 : ℚ), (0 : ℚ)) else f c) := by
  induction l with
  | nil => rfl
  | cons c cs ih => simp only [List.map_cons, applyNodata, ih]

unseal Rat.mul in
theorem toBytes_zero : toBytes ((0 : ℚ), (0 : ℚ), (0 : ℚ), (0 : ℚ)) = (0, 0, 0, 0) := by decide

theorem map_const_of_all {α β : Type} (l : List α) (f : α → β) (b : β)
    (hf : ∀ a ∈ l, f a = b) : l.map f = List.replicate l.length b := by
  induction l with
  | nil => rfl
  | cons c cs ih =>
    rw [List.map_cons, List.length_cons, List.replicate_succ, hf c (List.mem_cons_self c cs),
      ih (fun a ha => hf a (List.mem_cons_of_mem c ha))]

theorem colorize_eq_map (data : List RVal) (srcNodata : Option ℚ) (vmin vmax : ℚ)
    (hr : colorizeRange data srcNodata = some (vmin, vmax)) :
    colorize data srcNodata = .ok (data.map (pixelOf (nodataValue srcNodata) vmin vmax)) := by
  unfold colorize
  rw [hr]
  dsimp only
  congr 1
  unfold toByteImage cmapGrid rescaleGrid clipGrid nodataMask
  rw [List.map_map, List.map_map, applyNodata_map, List.map_map]
  apply List.map_congr_left
  intro c _
  simp only [Function.comp]
  unfold pixelOf
  by_cases h : isNodata (nodataValue srcNodata) c = true
  · rw [if_pos h, if_pos h, toBytes_zero]
  · rw [if_neg h, if_neg h]

/-- C1: if the 2nd and 98th percentiles of the valid cells are equal
(vmin = vmax), the colorizer raises no division error — the pipeline keeps
going and produces an image, and every valid cell does receive one uniform
color — but the normalized value is NaN (the IEEE quotient 0/0), not the
constant 0 the claim states, and the uniform color is the colormap's fully
transparent NaN color (0,0,0,0), not the gradient's low end: the whole
image, valid cells included, comes out as transparent zero pixels. -/
theorem C1_degenerate_range_uniform (data : List RVal) (srcNodata : Option ℚ) (v : ℚ)
    (hr : colorizeRange data srcNodata = some (v, v)) :
    rescaleGrid v v (clipGrid v v data) = List.replicate data.length RVal.nan
    ∧ colorize data srcNodata = .ok (List.replicate data.length ((0, 0, 0, 0) : ℕ × ℕ × ℕ × ℕ)) := by
  have hcell : ∀ c : RVal, rescaleV v v (clipV v v c) = RVal.nan := by
    intro c
    cases c with
    | nan => rfl
    | val x => simp [clipV, rescaleV, sub_self]
  constructor
  · unfold rescaleGrid clipGrid
    rw [List.map_map]
    exact map_const_of_all _ _ _ (fun c _ => hcell c)
  · rw [colorize_eq_map data srcNodata v v hr]
    congr 1
    apply map_const_of_all
    intro c _
    unfold pixelOf
    by_cases h : isNodata (nodataValue srcNodata) c = true
    · rw [if_pos h]
    · rw [if_neg h, hcell c]
      exact toBytes_zero

unseal Rat.add Rat.sub Rat.mul Rat.inv in
/-- Witness for C1 at the concrete all-fives grid with no declared no-data
value: the percentile range degenerates to (5, 5), the normalized grid is
all NaN, and the output image is uniformly (0,0,0,0). -/
theorem C1_degenerate_range_uniform_witness :
    colorizeRange [RVal.val 5, RVal.val 5] none = some (5, 5)
    ∧ rescaleGrid 5 5 (clipGrid 5 5 [RVal.val 5, RVal.val 5]) =
        List.replicate ([RVal.val 5, RVal.val 5] : List RVal).length RVal.nan
    ∧ colorize [RVal.val 5, RVal.val 5] none =
        .ok (List.replicate ([RVal.val 5, RVal.val 5] : List RVal).length ((0, 0, 0, 0) : ℕ × ℕ × ℕ × ℕ)) :=
  have h : colorizeRange [RVal.val 5, RVal.val 5] none = some (5, 5) := by decide
  ⟨h, (C1_degenerate_range_uniform [RVal.val 5, RVal.val 5] none 5 h).1,
    (C1_degenerate_range_uniform [RVal.val 5, RVal.val 5] none 5 h).2⟩

unseal Rat.add Rat.sub Rat.mul Rat.inv in
/-- Counterexample to C1 as stated: on the all-fives grid (no declared
no-data value) the colorizer's percentile range is the degenerate (5, 5),
and the normalized value of the valid cells is NaN — the 0/0 of
`(data - vmin) / (vmax - vmin)` at line 42, there being no degenerate-range
branch in the code — not the constant 0 the claim requires. -/
theorem C1_normalized_not_zero_counterexample :
    colorizeRange [RVal.val 5, RVal.val 5] none = some (5, 5)
    ∧ rescaleGrid 5 5 (clipGrid 5 5 [RVal.val 5, RVal.val 5]) = [RVal.nan, RVal.nan]
    ∧ RVal.nan ≠ RVal.val 0 := by
  exact ⟨by decide, by decide, by decide⟩

theorem map_get {α β : Type} (f : α → β) (l : List α) (i : ℕ)
    (h1 : i < (l.map f).length) (h2 : i < l.length) :
    (l.map f).get ⟨i, h1⟩ = f (l.get ⟨i, h2⟩) := by
  simp

/-- C4: whenever the colorizer produces an image, a cell flagged by the
no-data mask (sentinel or NaN, tested on the original clipped values) gets
the output pixel (0,0,0,0) — all four channels zero, alpha in particular —
no matter what its clamped/rescaled value would have been: the transparent
overwrite at line 45 is applied after the colormap and wins. -/
theorem C4_nodata_pixel_zero (data : List RVal) (srcNodata : Option ℚ)
    (img : List (ℕ × ℕ × ℕ × ℕ)) (i : ℕ) (hd : i < data.length) (hi : i < img.length)
    (hc : colorize data srcNodata = .ok img)
    (hm : isNodata (nodataValue srcNodata) (data.get ⟨i, hd⟩) = true) :
    img.get ⟨i, hi⟩ = (0, 0, 0, 0) := by
  rcases hrng : colorizeRange data srcNodata with _ | ⟨vmin, vmax⟩
  · unfold colorize at hc
    rw [hrng] at hc
    exact Except.noConfusion hc
  · rw [colorize_eq_map data srcNodata vmin vmax hrng] at hc
    have himg : img = data.map (pixelOf (nodataValue srcNodata) vmin vmax) :=
      (Except.ok.inj hc).symm
    subst himg
    rw [map_get _ _ i hi hd]
    unfold pixelOf
    rw [if_pos hm]

unseal Rat.add Rat.sub Rat.mul Rat.inv in
/-- Witness for C4: a three-cell grid whose last cell is NaN; the produced
image carries (0,0,0,0) at that position. -/
theorem C4_nodata_pixel_zero_witness :
    ([(0, 0, 127, 255), (127, 0, 0, 255), (0, 0, 0, 0)] : List (ℕ × ℕ × ℕ × ℕ)).get
      ⟨2, by decide⟩ = (0, 0, 0, 0) :=
  C4_nodata_pixel_zero [RVal.val 0, RVal.val 10, RVal.nan] none
    [(0, 0, 127, 255), (127, 0, 0, 255), (0, 0, 0, 0)] 2 (by decide) (by decide)
    (by decide) (by decide)

/-- C5 amended: the colorizer's (vmin, vmax) are exactly the 2nd and 98th
interpolated percentiles of the non-masked values (not the minimum and
maximum), and *provided vmin < vmax* every valid cell's clamped, linearly
rescaled value is a finite number in [0, 1].  In the degenerate vmin = vmax
case the code divides 0/0 and the rescaled value is NaN instead (see the
counterexample). -/
theorem C5_percentiles_and_unit_range (data : List RVal) (srcNodata : Option ℚ)
    (vmin vmax : ℚ) (hr : colorizeRange data srcNodata = some (vmin, vmax)) :
    percentile (validValues data (nodataValue srcNodata)) 2 = some vmin
    ∧ percentile (validValues data (nodataValue srcNodata)) 98 = some vmax
    ∧ (vmin < vmax → ∀ c ∈ data, isNodata (nodataValue srcNodata) c = false →
        inUnitInterval (rescaleV vmin vmax (clipV vmin vmax c)) = true) := by
  rcases h2 : percentile (validValues data (nodataValue srcNodata)) 2 with _ | a <;>
    rcases h98 : percentile (validValues data (nodataValue srcNodata)) 98 with _ | b <;>
      simp only [colorizeRange, h2, h98] at hr
  · exact Option.noConfusion hr
  · exact Option.noConfusion hr
  · exact Option.noConfusion hr
  have hab := Option.some.inj hr
  obtain ⟨ha, hb⟩ : a = vmin ∧ b = vmax := ⟨congrArg Prod.fst hab, congrArg Prod.snd hab⟩
  subst ha
  subst hb
  refine ⟨rfl, rfl, ?_⟩
  intro hlt c _ hvalid
  cases c with
  | nan => simp [isNodata] at hvalid
  | val x =>
    have hne := sub_ne_zero.mpr (ne_of_gt hlt)
    simp only [clipV, rescaleV, if_neg hne, inUnitInterval, decide_eq_true_eq]
    rw [qmin_eq_min, qmax_eq_max]
    constructor
    · apply div_nonneg
      · rw [sub_nonneg]
        exact le_min (le_of_lt hlt) (le_max_left a x)
      · exact sub_nonneg.mpr (le_of_lt hlt)
    · rw [div_le_one (sub_pos.mpr hlt)]
      exact sub_le_sub_right (min_le_left b _) a

unseal Rat.add Rat.sub Rat.mul Rat.inv in
/-- Witness for C5 on the two-cell grid [0, 10]: the percentiles are 1/5 and
49/5 (strictly inside the min/max, showing the interpolation), and the cell
0 rescales into [0, 1]. -/
theorem C5_percentiles_and_unit_range_witness :
    percentile (validValues [RVal.val 0, RVal.val 10] (nodataValue none)) 2 = some (1/5)
    ∧ percentile (validValues [RVal.val 0, RVal.val 10] (nodataValue none)) 98 = some (49/5)
    ∧ inUnitInterval (rescaleV (1/5) (49/5) (clipV (1/5) (49/5) (RVal.val 0))) = true :=
  have T := C5_percentiles_and_unit_range [RVal.val 0, RVal.val 10] none (1/5) (49/5) (by decide)
  ⟨T.1, T.2.1, T.2.2 (by decide) (RVal.val 0) (by decide) (by decide)⟩

unseal Rat.add Rat.sub Rat.mul Rat.inv in
/-- Counterexample to C5 as stated: on the all-fives grid the colorizer's
range degenerates to (5, 5) and the valid cell's clamped, rescaled value is
NaN (0/0), which does not lie in [0, 1]. -/
theorem C5_unit_range_counterexample :
    colorizeRange [RVal.val 5, RVal.val 5] none = some (5, 5)
    ∧ isNodata (nodataValue none) (RVal.val 5) = false
    ∧ inUnitInterval (rescaleV 5 5 (clipV 5 5 (RVal.val 5))) = false := by
  exact ⟨by decide, by decide, by decide⟩

unseal Rat.mul in
theorem toByte_one : toByte 1 = 255 := by decide

/-- C10 amended: the no-data mask is computed from the clipped grid's
original values (line 39, before any clamping or rescaling) and the
transparent overwrite is applied last (line 45), so rescaling can never make
a no-data cell opaque; and *provided vmin < vmax*, clamping and rescaling
can never make a valid cell transparent either — a pixel's alpha is 0
exactly when the original cell failed the sentinel/NaN test.  In the
degenerate vmin = vmax case, however, every valid cell's rescaled value is
NaN and the colormap renders it with the fully transparent bad color, so
valid cells also come out transparent (see the counterexample). -/
theorem C10_transparency_iff_nodata (data : List RVal) (srcNodata : Option ℚ)
    (vmin vmax : ℚ) (img : List (ℕ × ℕ × ℕ × ℕ)) (i : ℕ)
    (hd : i < data.length) (hi : i < img.length)
    (hr : colorizeRange data srcNodata = some (vmin, vmax)) (hlt : vmin < vmax)
    (hc : colorize data srcNodata = .ok img) :
    (img.get ⟨i, hi⟩).2.2.2 = 0 ↔ isNodata (nodataValue srcNodata) (data.get ⟨i, hd⟩) = true := by
  rw [colorize_eq_map data srcNodata vmin vmax hr] at hc
  have himg : img = data.map (pixelOf (nodataValue srcNodata) vmin vmax) :=
    (Except.ok.inj hc).symm
  subst himg
  rw [map_get _ _ i hi hd]
  unfold pixelOf
  by_cases hm : isNodata (nodataValue srcNodata) (data.get ⟨i, hd⟩) = true
  · rw [if_pos hm]
    simpa using hm
  · rw [if_neg hm]
    have hne := sub_ne_zero.mpr (ne_of_gt hlt)
    rcases hcell : data.get ⟨i, hd⟩ with _ | x
    · simp [clipV, rescaleV, cmapJet, isNodata]
      show (toBytes ((0 : ℚ), (0 : ℚ), (0 : ℚ), (0 : ℚ))).2.2.2 = 0
      rw [toBytes_zero]
    · rw [hcell] at hm
      have hfalse : isNodata (nodataValue srcNodata) (RVal.val x) = false := by
        cases hb : isNodata (nodataValue srcNodata) (RVal.val x)
        · rfl
        · exact absurd hb hm
      simp [clipV, rescaleV, if_neg hne, cmapJet, toBytes, toByte_one, hfalse]

unseal Rat.add Rat.sub Rat.mul Rat.inv in
/-- Witness for C10 on the grid [0, 10, -32000] with no declared no-data
value: the sentinel cell is the one and only transparent pixel. -/
theorem C10_transparency_iff_nodata_witness :
    (([(0, 0, 127, 255), (127, 0, 0, 255), (0, 0, 0, 0)] :
        List (ℕ × ℕ × ℕ × ℕ)).get ⟨2, by decide⟩).2.2.2 = 0
    ↔ isNodata (nodataValue none)
        (([RVal.val 0, RVal.val 10, RVal.val (-32000)] : List RVal).get ⟨2, by decide⟩) = true :=
  C10_transparency_iff_nodata [RVal.val 0, RVal.val 10, RVal.val (-32000)] none
    (1/5) (49/5) [(0, 0, 127, 255), (127, 0, 0, 255), (0, 0, 0, 0)] 2
    (by decide) (by decide) (by decide) (by decide) (by decide)

unseal Rat.add Rat.sub Rat.mul Rat.inv in
/-- Counterexample to C10 as stated: on the one-cell grid [5] the single
cell is valid (it is neither the sentinel -32000 nor NaN), yet its output
pixel is (0,0,0,0) with alpha 0 — the degenerate percentile range (5, 5)
sends the rescaled value to NaN and the colormap renders the transparent
bad color, so transparency is not determined solely by the original
sentinel/NaN comparison. -/
theorem C10_valid_cell_transparent_counterexample :
    colorize [RVal.val 5] none = .ok [(0, 0, 0, 0)]
    ∧ isNodata (nodataValue none) (RVal.val 5) = false := by
  exact ⟨by decide, by decide⟩

theorem maskCells_length (geoms : List (List Bool)) (fill : ℚ) :
    ∀ (cells : List RVal) (k : ℕ), (maskCells geoms fill cells k).length = cells.length := by
  intro cells
  induction cells with
  | nil => intro k; rfl
  | cons c cs ih => intro k; simp [maskCells, ih]

theorem maskCells_get (geoms : List (List Bool)) (fill : ℚ) :
    ∀ (cells : List RVal) (k i : ℕ) (h1 : i < (maskCells geoms fill cells k).length)
      (h2 : i < cells.length),
      (maskCells geoms fill cells k).get ⟨i, h1⟩ =
        if unionCover geoms (k + i) then cells.get ⟨i, h2⟩ else RVal.val fill := by
  intro cells
  induction cells with
  | nil => intro k i h1 h2; exact absurd h2 (by simp)
  | cons c cs ih =>
    intro k i h1 h2
    cases i with
    | zero => simp [maskCells]
    | succ j =>
      have hj1 : j < (maskCells geoms fill cs (k + 1)).length := by
        rw [maskCells_length]
        exact Nat.lt_of_succ_lt_succ h2
      have hj2 : j < cs.length := Nat.lt_of_succ_lt_succ h2
      have harith : k + 1 + j = k + (j + 1) := by omega
      calc (maskCells geoms fill (c :: cs) k).get ⟨j + 1, h1⟩
      _ = (maskCells geoms fill cs (k + 1)).get ⟨j, hj1⟩ := rfl
      _ = if unionCover geoms (k + 1 + j) then cs.get ⟨j, hj2⟩ else RVal.val fill :=
          ih (k + 1) j hj1 hj2
      _ = if unionCover geoms (k + (j + 1)) then (c :: cs).get ⟨j + 1, h2⟩ else RVal.val fill := by
          rw [harith]
          rfl

/-- C2 amended: when the raster declares no no-data value, the colorizer's
test value is the fallback -32000 (line 38), but the masking stage at
line 29 does *not* use that sentinel — rasterio fills cells outside the
polygons with its default fill 0 — so a cell cut away by the mask holds 0
in the clipped grid and is not flagged by the colorizer's no-data test:
the sentinel is not used consistently across the two stages. -/
theorem C2_mask_fill_not_sentinel (cells : List RVal) (geoms : List (List Bool))
    (out : List RVal) (i : ℕ) (hi : i < out.length)
    (hm : maskCrop cells geoms none = .ok out)
    (hcov : unionCover geoms i = false) :
    out.get ⟨i, hi⟩ = RVal.val 0
    ∧ nodataValue none = -32000
    ∧ isNodata (nodataValue none) (RVal.val 0) = false := by
  refine ⟨?_, rfl, by decide⟩
  unfold maskCrop at hm
  by_cases hcs : coversSome geoms cells.length = true
  · rw [if_pos hcs] at hm
    have hout : out = maskCells geoms (maskFill none) cells 0 := (Except.ok.inj hm).symm
    subst hout
    have h2 : i < cells.length := by
      rw [maskCells_length] at hi
      exact hi
    rw [maskCells_get geoms _ cells 0 i hi h2, Nat.zero_add, if_neg (by simp [hcov])]
    rfl
  · rw [if_neg hcs] at hm
    exact Except.noConfusion hm

/-- Witness for C2 on a two-cell raster with no declared no-data value and a
single polygon covering only the first cell: the uncovered cell comes back
as 0, which the colorizer's -32000 test does not flag. -/
theorem C2_mask_fill_not_sentinel_witness :
    ([RVal.val 7, RVal.val 0] : List RVal).get ⟨1, by decide⟩ = RVal.val 0
    ∧ nodataValue none = -32000
    ∧ isNodata (nodataValue none) (RVal.val 0) = false :=
  C2_mask_fill_not_sentinel [RVal.val 7, RVal.val 7] [[true, false]]
    [RVal.val 7, RVal.val 0] 1 (by decide) (by decide) (by decide)

/-- Counterexample to C2 as stated: with no declared no-data value the
masking stage's fill value is 0 (rasterio's default), not the -32000 the
claim requires, as the uncovered second cell of this concrete clip shows;
the 0 left behind then passes the colorizer's -32000 no-data test as a
valid cell. -/
theorem C2_fill_is_zero_counterexample :
    maskFill none = 0
    ∧ maskFill none ≠ -32000
    ∧ maskCrop [RVal.val 7, RVal.val 7] [[true, false]] none = .ok [RVal.val 7, RVal.val 0]
    ∧ isNodata (nodataValue none) (RVal.val 0) = false := by
  exact ⟨rfl, by decide, by decide, by decide⟩

/-- C3: when the boundary polygons do not intersect the raster extent
(they cover no cell of the grid), the clip raises — the uncaught rasterio
error the spec's taxonomy names `ClipEmptyError` — and the run dies there:
neither the PNG (line 48) nor the HTML (line 83) is written. -/
theorem C3_no_overlap_no_outputs (env : Env) (geoms : List (List Bool)) (vcrs : ℤ)
    (src : Raster)
    (hv : env.vectorFile = .content geoms vcrs)
    (hr : env.raster = some src)
    (hno : coversSome geoms src.cells.length = false) :
    runMain env = ⟨some .clipEmpty, false, false⟩ := by
  unfold runMain
  rw [hv, hr]
  show (match maskCrop src.cells geoms src.nodata with
    | .error _ => (⟨some .clipEmpty, false, false⟩ : RunResult)
    | .ok data =>
      match colorize data src.nodata with
      | .error _ => ⟨some .percentileEmpty, false, false⟩
      | .ok _img =>
        if env.pngWriteOk then
          if env.htmlWriteOk then ⟨none, true, true⟩
          else ⟨some .write, true, false⟩
        else ⟨some .encode, false, false⟩) = ⟨some .clipEmpty, false, false⟩
  unfold maskCrop
  rw [if_neg (by simp [hno])]

/-- Witness for C3: a one-cell raster and a single polygon covering no cell;
the run reports the empty clip and writes nothing. -/
theorem C3_no_overlap_no_outputs_witness :
    runMain ⟨VectorFile.content [[false]] 0, some ⟨[RVal.val 1], none, 0⟩, true, true⟩ =
      ⟨some .clipEmpty, false, false⟩ :=
  C3_no_overlap_no_outputs _ [[false]] 0 ⟨[RVal.val 1], none, 0⟩ rfl rfl (by decide)

/-- C6 amended: the vector loader fails (`DataLoadError`) exactly when the
file is missing or unreadable, and on success returns the geometry
collection and its CRS unchanged (the model is a pure function — no side
effects); but a readable file with *zero* geometries is not a failure:
geopandas returns an empty collection, so the claim's no-geometries case
does not raise in the loader. -/
theorem C6_loader_behavior (vf : VectorFile) :
    (gpdReadFile vf = .error .dataLoad ↔ vf = .missing ∨ vf = .unreadable)
    ∧ ∀ geoms crs, vf = .content geoms crs → gpdReadFile vf = .ok (geoms, crs) := by
  cases vf <;> simp [gpdReadFile]

/-- Witness for C6: a missing file raises, and a readable file with zero
geometries loads successfully as the empty collection. -/
theorem C6_loader_behavior_witness :
    gpdReadFile VectorFile.missing = .error PErr.dataLoad
    ∧ gpdReadFile (VectorFile.content [] 0) = .ok ([], 0) :=
  ⟨((C6_loader_behavior VectorFile.missing).1).mpr (Or.inl rfl),
    (C6_loader_behavior (VectorFile.content [] 0)).2 [] 0 rfl⟩

/-- Counterexample to C6 as stated: a readable boundary file containing no
geometries does not make the loader fail — it returns the empty collection,
not `DataLoadError`. -/
theorem C6_empty_geoms_counterexample :
    gpdReadFile (VectorFile.content [] 0) = .ok ([], 0)
    ∧ gpdReadFile (VectorFile.content [] 0) ≠ .error PErr.dataLoad := by
  exact ⟨rfl, by decide⟩

/-- C7: the HTML write (line 83) comes strictly after the PNG write
(line 48) in the straight-line script, so when the PNG write fails the
uncaught exception ends the run and no HTML file is produced (and no PNG
either). -/
theorem C7_png_failure_stops_html (env : Env) (hp : env.pngWriteOk = false) :
    (runMain env).pngWritten = false ∧ (runMain env).htmlWritten = false := by
  unfold runMain
  cases hg : gpdReadFile env.vectorFile with
  | error e => exact ⟨rfl, rfl⟩
  | ok p =>
    obtain ⟨geoms, gcrs⟩ := p
    dsimp only
    cases hr : env.raster with
    | none => exact ⟨rfl, rfl⟩
    | some src =>
      dsimp only
      cases hm : maskCrop src.cells geoms src.nodata with
      | error e => exact ⟨rfl, rfl⟩
      | ok data =>
        dsimp only
        cases hc : colorize data src.nodata with
        | error e => exact ⟨rfl, rfl⟩
        | ok img =>
          dsimp only
          rw [hp]
          exact ⟨rfl, rfl⟩

/-- Witness for C7: a run whose inputs are all fine but whose PNG write
fails produces no HTML (and no PNG). -/
theorem C7_png_failure_stops_html_witness :
    (runMain ⟨VectorFile.content [[true]] 0,
        some ⟨[RVal.val 1, RVal.val 2], none, 0⟩, false, true⟩).pngWritten = false
    ∧ (runMain ⟨VectorFile.content [[true]] 0,
        some ⟨[RVal.val 1, RVal.val 2], none, 0⟩, false, true⟩).htmlWritten = false :=
  C7_png_failure_stops_html _ rfl

/-- C8 (code bug, flagged by the spec itself): in the handle-interaction
trace of `main` read off lines 22-38, the `src.nodata` attribute read at
line 38 happens *after* the `with` block has closed the raster handle
(after line 37) — the code relies on rasterio's cached attribute retention
instead of extracting the no-data value while the file is open, contrary to
the claim that no raster attribute is read after the handle's scope closes. -/
theorem C8_attr_read_after_close : attrReadAfterClose mainRasterEvents = true := by decide

theorem validValues_eq_nil (data : List RVal) (nd : ℚ)
    (h : ∀ c ∈ data, isNodata nd c = true) : validValues data nd = [] := by
  induction data with
  | nil => rfl
  | cons c cs ih =>
    have hc := h c (List.mem_cons_self c cs)
    have ics := ih (fun a ha => h a (List.mem_cons_of_mem c ha))
    cases c with
    | nan =>
      simpa [validValues, List.filterMap_cons] using ics
    | val x =>
      have hx : x = nd := of_decide_eq_true hc
      simp only [validValues, List.filterMap_cons, if_pos hx]
      exact ics

theorem colorize_error_of_all_nodata (data : List RVal) (srcNodata : Option ℚ)
    (h : ∀ c ∈ data, isNodata (nodataValue srcNodata) c = true) :
    colorize data srcNodata = .error () := by
  have hv : validValues data (nodataValue srcNodata) = [] := validValues_eq_nil _ _ h
  unfold colorize colorizeRange
  rw [hv]
  rfl

/-- C9: when every cell of the clipped grid is no-data (sentinel or NaN),
the valid-value set of line 40 is empty and `np.percentile` raises on it —
an error distinct from the empty-clip error of line 29 — so the run dies at
the colorizer and neither the PNG nor the HTML file is produced. -/
theorem C9_all_nodata_dies_at_percentile (env : Env) (geoms : List (List Bool)) (vcrs : ℤ)
    (src : Raster) (data : List RVal)
    (hv : env.vectorFile = .content geoms vcrs)
    (hr : env.raster = some src)
    (hm : maskCrop src.cells geoms src.nodata = .ok data)
    (hall : ∀ c ∈ data, isNodata (nodataValue src.nodata) c = true) :
    runMain env = ⟨some .percentileEmpty, false, false⟩
    ∧ PErr.percentileEmpty ≠ PErr.clipEmpty := by
  refine ⟨?_, by decide⟩
  unfold runMain
  rw [hv]
  dsimp only [gpdReadFile]
  rw [hr]
  dsimp only
  rw [hm]
  dsimp only
  rw [colorize_error_of_all_nodata data src.nodata hall]

/-- Witness for C9: a one-cell raster whose declared no-data value -999
fills its only (covered) cell; the run dies at the percentile computation
with nothing written. -/
theorem C9_all_nodata_dies_at_percentile_witness :
    runMain ⟨VectorFile.content [[true]] 0, some ⟨[RVal.val (-999)], some (-999), 0⟩, true, true⟩ =
      ⟨some .percentileEmpty, false, false⟩
    ∧ PErr.percentileEmpty ≠ PErr.clipEmpty :=
  C9_all_nodata_dies_at_percentile _ [[true]] 0 ⟨[RVal.val (-999)], some (-999), 0⟩
    [RVal.val (-999)] rfl rfl (by decide) (by decide)
